import Mathlib

/-!
Verification development for the geoengine kernel-dispatch core.

The Rust sources `datatypes/src/raster/geo_transform.rs` and
`operators/src/opencl/cl_program.rs` are shallowly embedded below:
pure host-side control flow is translated into executable Lean functions,
`f64` values that are only moved (never rounded) are represented by `ℚ`,
fallible operations return `Except`, and a Rust panic (`expect`, `todo!`,
out-of-bounds indexing) is represented by `Option.none` on an
`Option`-wrapped result.  Device-side OpenCL operations (context creation,
buffer allocation, kernel enqueue, readback) are outside the host model and
are represented as succeeding, so the theorems below speak about the
host-side validation and control flow that happens around them.
-/

namespace GeoEngine

/-- `Coordinate2D` from `geoengine_datatypes::primitives`: a pair of `f64`
coordinates.  The bridge operations only move these values, so `ℚ` is a
faithful stand-in. -/
structure Coordinate2D where
  x : ℚ
  y : ℚ
deriving DecidableEq

/-- `GeoTransform` from `datatypes/src/raster/geo_transform.rs`. -/
structure GeoTransform where
  upper_left_coordinate : Coordinate2D
  x_pixel_size : ℚ
  y_pixel_size : ℚ
deriving DecidableEq

/-- `GdalGeoTransform = [f64; 6]` from `geo_transform.rs`, embedded as a
record with one field per array slot. -/
structure GdalGeoTransform where
  a0 : ℚ
  a1 : ℚ
  a2 : ℚ
  a3 : ℚ
  a4 : ℚ
  a5 : ℚ
deriving DecidableEq

/-- `GeoTransform::new_with_coordinate_x_y` from `geo_transform.rs`. -/
def GeoTransform.new_with_coordinate_x_y (upper_left_x_coordinate x_pixel_size
    upper_left_y_coordinate y_pixel_size : ℚ) : GeoTransform :=
  { upper_left_coordinate := { x := upper_left_x_coordinate, y := upper_left_y_coordinate }
    x_pixel_size := x_pixel_size
    y_pixel_size := y_pixel_size }

/-- `impl From<GdalGeoTransform> for GeoTransform` from `geo_transform.rs`:
slots 0, 1, 3, 5 are consumed, slots 2 and 4 are commented out. -/
def GeoTransform.from_gdal (g : GdalGeoTransform) : GeoTransform :=
  GeoTransform.new_with_coordinate_x_y g.a0 g.a1 g.a3 g.a5

/-- `impl Into<GdalGeoTransform> for GeoTransform` from `geo_transform.rs`:
emits `[ul.x, sx, 0, ul.y, 0, sy]`. -/
def GeoTransform.into_gdal (g : GeoTransform) : GdalGeoTransform :=
  { a0 := g.upper_left_coordinate.x
    a1 := g.x_pixel_size
    a2 := 0
    a3 := g.upper_left_coordinate.y
    a4 := 0
    a5 := g.y_pixel_size }

/-- C5: the six-element bridge.  `GeoTransform → [f64;6] → GeoTransform` is
the identity; the emitted array is `[ul.x, sx, 0, ul.y, 0, sy]`; the import
uses only slots 0, 1, 3, 5 (slots 2 and 4 are discarded, so changing them
does not change the import); hence the reverse round-trip
array → GeoTransform → array zeroes slots 2 and 4 and preserves the rest. -/
theorem geo_transform_six_element_bridge :
    (∀ g : GeoTransform, GeoTransform.from_gdal (GeoTransform.into_gdal g) = g)
    ∧ (∀ g : GeoTransform, GeoTransform.into_gdal g =
        { a0 := g.upper_left_coordinate.x, a1 := g.x_pixel_size, a2 := 0,
          a3 := g.upper_left_coordinate.y, a4 := 0, a5 := g.y_pixel_size })
    ∧ (∀ (a : GdalGeoTransform) (v w : ℚ),
        GeoTransform.from_gdal { a with a2 := v, a4 := w } = GeoTransform.from_gdal a)
    ∧ (∀ a : GdalGeoTransform, GeoTransform.into_gdal (GeoTransform.from_gdal a) =
        { a with a2 := 0, a4 := 0 }) := by
  refine ⟨fun g => ?_, fun g => rfl, fun a v w => rfl, fun a => rfl⟩
  cases g with
  | mk ul sx sy => cases ul; rfl

/-- `RasterDataType` from `geoengine_datatypes::raster`: the closed set of
ten pixel element types matched on throughout `cl_program.rs`. -/
inductive RasterDataType where
  | U8 | U16 | U32 | U64 | I8 | I16 | I32 | I64 | F32 | F64
deriving DecidableEq

/-- `RasterArgument` from `cl_program.rs`. -/
structure RasterArgument where
  data_type : RasterDataType
deriving DecidableEq

/-- `VectorDataType` from `geoengine_datatypes::collections`: the geometry
kinds matched on in `cl_program.rs`. -/
inductive VectorDataType where
  | Data | MultiPoint | MultiLineString | MultiPolygon
deriving DecidableEq

/-- Modelled from the spec: `FeatureDataType`, the attribute-column type tag
("typed attribute columns keyed by name"); its defining module is not among
the analysed sources.  Only decidable equality of tags is used. -/
inductive FeatureDataType where
  | Text | Number | Decimal | Categorical
deriving DecidableEq

/-- `VectorArgument` from `cl_program.rs`. -/
structure VectorArgument where
  vector_type : VectorDataType
  columns : List String
  column_types : List FeatureDataType
deriving DecidableEq

/-- `IterationType` from `cl_program.rs`. -/
inductive IterationType where
  | Raster | VectorFeatures | VectorCoordinates
deriving DecidableEq

/-- The error kinds observable from `cl_program.rs`.  The first seven are the
variants constructed there (`error::CL...`).  The last four are modelled from
the spec's error taxonomy (`error.rs` is not among the analysed sources);
`cl_program.rs` never constructs them, which the theorems below exploit. -/
inductive CLError where
  | invalidInputsForIterationType
  | invalidRasterIndex
  | invalidRasterDataType
  | invalidFeaturesIndex
  | invalidVectorDataType
  | unspecifiedRaster
  | unspecifiedFeatures
  | missingColumn
  | columnTypeMismatch
  | unsupportedGeometry
  | emptyWorkSize
deriving DecidableEq

/-- `CLProgram` from `cl_program.rs` (declaration-time state). -/
structure CLProgram where
  input_rasters : List RasterArgument
  output_rasters : List RasterArgument
  input_features : List VectorArgument
  output_features : List VectorArgument
  iteration_type : IterationType
deriving DecidableEq

/-- `CLProgram::raster_data_type_to_cl` from `cl_program.rs`. -/
def raster_data_type_to_cl : RasterDataType → String
  | RasterDataType.U8 => "uchar"
  | RasterDataType.U16 => "ushort"
  | RasterDataType.U32 => "uint"
  | RasterDataType.U64 => "ulong"
  | RasterDataType.I8 => "char"
  | RasterDataType.I16 => "short"
  | RasterDataType.I32 => "int"
  | RasterDataType.I64 => "long"
  | RasterDataType.F32 => "float"
  | RasterDataType.F64 => "double"

/-- The raw string pushed first by `CLProgram::create_type_definitions`:
the `RasterInfo` struct and the `R(t,x,y)` accessor macro. -/
def raster_info_struct_and_accessor : String :=
  "\ntypedef struct \x7b\n\tuint size[3];\n\tdouble origin[3];\n\tdouble scale[3];\n\tdouble min, max, no_data;\n\tushort crs_code;\n\tushort has_no_data;\n\x7d RasterInfo;\n\n#define R(t,x,y) t ## _data[y * t ## _info->size[0] + x]\n"

/-- The two lines appended per input raster by `create_type_definitions`:
the `IN_TYPE<idx>` typedef and the `ISNODATA<idx>` macro (floating variant
for `F32`/`F64`, integer variant otherwise). -/
def input_raster_type_lines (idx : Nat) (raster : RasterArgument) : String :=
  "typedef " ++ raster_data_type_to_cl raster.data_type ++ " IN_TYPE" ++ toString idx ++ ";\n"
    ++ (if raster.data_type = RasterDataType.F32 ∨ raster.data_type = RasterDataType.F64 then
      "#define ISNODATA" ++ toString idx ++ "(v,i) (i->has_no_data && (isnan(v) || v == i->no_data))\n"
    else
      "#define ISNODATA" ++ toString idx ++ "(v,i) (i->has_no_data && v == i->no_data)\n")

/-- The line appended per output raster by `create_type_definitions`:
the `OUT_TYPE<idx>` typedef. -/
def output_raster_type_line (idx : Nat) (raster : RasterArgument) : String :=
  "typedef " ++ raster_data_type_to_cl raster.data_type ++ " OUT_TYPE" ++ toString idx ++ ";\n"

/-- The `for (idx, raster) in self.input_rasters.iter().enumerate()` loop of
`create_type_definitions`, appending to the accumulator string `s`. -/
def push_input_raster_types : List (Nat × RasterArgument) → String → String
  | [], s => s
  | p :: rest, s => push_input_raster_types rest (s ++ input_raster_type_lines p.1 p.2)

/-- The `for (idx, raster) in self.output_rasters.iter().enumerate()` loop of
`create_type_definitions`. -/
def push_output_raster_types : List (Nat × RasterArgument) → String → String
  | [], s => s
  | p :: rest, s => push_output_raster_types rest (s ++ output_raster_type_line p.1 p.2)

/-- `CLProgram::create_type_definitions` from `cl_program.rs`. -/
def create_type_definitions (p : CLProgram) : String :=
  if p.input_rasters.length + p.output_rasters.length = 0 then "" else
    let s := raster_info_struct_and_accessor
    let s := push_input_raster_types p.input_rasters.enum s
    push_output_raster_types p.output_rasters.enum s

/-- `CompiledCLProgram` from `cl_program.rs`.  The device context and device
program handles are outside the host model; `build_source` records what was
submitted to the device compiler (type prelude followed by user source). -/
structure CompiledCLProgram where
  kernel_name : String
  iteration_type : IterationType
  input_raster_types : List RasterArgument
  output_raster_types : List RasterArgument
  input_feature_types : List VectorArgument
  output_feature_types : List VectorArgument
  build_source : String
deriving DecidableEq

/-- `CLProgram::compile` from `cl_program.rs`.  The `ensure!` gate is checked
first; only on success is the type prelude synthesized and, in the source,
handed with the user source to the device compiler.  Device context creation
and the device build are outside the host model (they can only add `Backend`
errors); the compiled program records the submitted source. -/
def CLProgram.compile (p : CLProgram) (source : String) (kernel_name : String) :
    Except CLError CompiledCLProgram :=
  if ((p.iteration_type = IterationType.VectorFeatures
        ∨ p.iteration_type = IterationType.VectorCoordinates)
      ∧ (p.input_features ≠ [] ∧ p.output_features ≠ []))
     ∨ (p.iteration_type = IterationType.Raster
        ∧ p.input_rasters ≠ [] ∧ p.output_rasters ≠ []) then
    let typedefs := create_type_definitions p
    Except.ok
      { kernel_name := kernel_name
        iteration_type := p.iteration_type
        input_raster_types := p.input_rasters
        output_raster_types := p.output_rasters
        input_feature_types := p.input_features
        output_feature_types := p.output_features
        build_source := typedefs ++ source }
  else
    Except.error CLError.invalidInputsForIterationType

/-- The iteration-type minimum as worded in the spec: `Raster` needs at least
one input and one output raster; the vector iteration types need at least one
input and one output feature list. -/
def iteration_type_minimum (p : CLProgram) : Prop :=
  match p.iteration_type with
  | IterationType.Raster => p.input_rasters ≠ [] ∧ p.output_rasters ≠ []
  | IterationType.VectorFeatures => p.input_features ≠ [] ∧ p.output_features ≠ []
  | IterationType.VectorCoordinates => p.input_features ≠ [] ∧ p.output_features ≠ []

/-- C1: `compile` fails with `InvalidInputsForIterationType`, before any
device work (the gate is the first statement of `compile`; the device is
only reached in the success branch), exactly when the declared argument
lists violate the iteration-type minimum. -/
theorem compile_invalid_inputs_iff_minimum_violated (p : CLProgram)
    (source kernel_name : String) :
    p.compile source kernel_name = Except.error CLError.invalidInputsForIterationType
      ↔ ¬ iteration_type_minimum p := by
  obtain ⟨ir, out_r, in_f, out_f, it⟩ := p
  cases it <;>
    simp [CLProgram.compile, iteration_type_minimum]

/-- The canonical device type name for each element type as listed in the
claim: `uchar, ushort, uint, ulong, char, short, int, long, float, double`
for `U8` through `F64`. -/
def canonical_device_type_name : RasterDataType → String
  | RasterDataType.U8 => "uchar"
  | RasterDataType.U16 => "ushort"
  | RasterDataType.U32 => "uint"
  | RasterDataType.U64 => "ulong"
  | RasterDataType.I8 => "char"
  | RasterDataType.I16 => "short"
  | RasterDataType.I32 => "int"
  | RasterDataType.I64 => "long"
  | RasterDataType.F32 => "float"
  | RasterDataType.F64 => "double"

/-- Whether an element type is one of the floating variants `F32`/`F64`
(those whose `ISNODATA` macro additionally treats `isnan(v)` as no-data). -/
def floating_element_type : RasterDataType → Bool
  | RasterDataType.F32 => true
  | RasterDataType.F64 => true
  | _ => false

/-- Concatenation of the images of a list under a string-valued function;
used to state the prelude as a flat concatenation in declaration order. -/
def concat_str {α : Type} (f : α → String) : List α → String
  | [] => ""
  | x :: xs => f x ++ concat_str f xs

/-- The input-raster prelude entry as the claim words it: a typedef of the
canonical device type name as `IN_TYPE<i>`, together with an `ISNODATA<i>`
macro testing `has_no_data && v == no_data`, with `isnan(v)` additionally
treated as no-data for the floating variants. -/
def claim_input_entry (p : Nat × RasterArgument) : String :=
  "typedef " ++ canonical_device_type_name p.2.data_type ++ " IN_TYPE" ++ toString p.1 ++ ";\n"
    ++ (if floating_element_type p.2.data_type then
      "#define ISNODATA" ++ toString p.1 ++ "(v,i) (i->has_no_data && (isnan(v) || v == i->no_data))\n"
    else
      "#define ISNODATA" ++ toString p.1 ++ "(v,i) (i->has_no_data && v == i->no_data)\n")

/-- The output-raster prelude entry as the claim words it: a typedef
`OUT_TYPE<i>` of the canonical device type name. -/
def claim_output_entry (p : Nat × RasterArgument) : String :=
  "typedef " ++ canonical_device_type_name p.2.data_type ++ " OUT_TYPE" ++ toString p.1 ++ ";\n"

theorem input_entry_agrees (p : Nat × RasterArgument) :
    input_raster_type_lines p.1 p.2 = claim_input_entry p := by
  obtain ⟨i, ⟨dt⟩⟩ := p
  cases dt <;> rfl

theorem output_entry_agrees (p : Nat × RasterArgument) :
    output_raster_type_line p.1 p.2 = claim_output_entry p := by
  obtain ⟨i, ⟨dt⟩⟩ := p
  cases dt <;> rfl

theorem push_input_eq_concat (l : List (Nat × RasterArgument)) (s : String) :
    push_input_raster_types l s = s ++ concat_str claim_input_entry l := by
  induction l generalizing s with
  | nil => simp [push_input_raster_types, concat_str, String.append_empty]
  | cons p rest ih =>
    simp only [push_input_raster_types, concat_str, ih, input_entry_agrees,
      String.append_assoc]

theorem push_output_eq_concat (l : List (Nat × RasterArgument)) (s : String) :
    push_output_raster_types l s = s ++ concat_str claim_output_entry l := by
  induction l generalizing s with
  | nil => simp [push_output_raster_types, concat_str, String.append_empty]
  | cons p rest ih =>
    simp only [push_output_raster_types, concat_str, ih, output_entry_agrees,
      String.append_assoc]

/-- C7: the synthesized type prelude is empty when no raster arguments are
declared, and otherwise consists of the `RasterInfo` struct with the
`R(t,x,y)` accessor macro, followed by, per input raster in declaration
order, the canonical typedef and the float-aware `ISNODATA` macro, followed
by, per output raster in declaration order, the canonical `OUT_TYPE`
typedef. -/
theorem create_type_definitions_matches_claim (p : CLProgram) :
    (p.input_rasters = [] ∧ p.output_rasters = [] → create_type_definitions p = "")
    ∧ (p.input_rasters ≠ [] ∨ p.output_rasters ≠ [] →
        create_type_definitions p =
          raster_info_struct_and_accessor
            ++ concat_str claim_input_entry p.input_rasters.enum
            ++ concat_str claim_output_entry p.output_rasters.enum) := by
  constructor
  · rintro ⟨h1, h2⟩
    simp [create_type_definitions, h1, h2]
  · intro h
    have hlen : ¬ (p.input_rasters.length + p.output_rasters.length = 0) := by
      rcases h with h | h <;> intro hc <;> apply h
      · exact List.length_eq_zero.mp (by omega)
      · exact List.length_eq_zero.mp (by omega)
    simp only [create_type_definitions, if_neg hlen]
    rw [push_input_eq_concat, push_output_eq_concat, String.append_assoc]

/-- `impl Default for GeoTransform` from `geo_transform.rs`. -/
def GeoTransform.default : GeoTransform :=
  GeoTransform.new_with_coordinate_x_y 0 1 0 (-1)

/-- Modelled from the spec: the grid dimension of a `Raster2D` ("dimension
`(w, h)`"), with the accessors `size_of_x_axis`/`size_of_y_axis` that
`cl_program.rs` calls; the `Dim2D` module is not among the analysed
sources. -/
structure Dim2 where
  size_of_x_axis : Nat
  size_of_y_axis : Nat
deriving DecidableEq

/-- Modelled from the spec: the time interval carried by rasters and
features; no validated operation inspects it. -/
structure TimeInterval where
  start : Int
  stop : Int
deriving DecidableEq

/-- Modelled from the spec: `Raster2D<T>` ("dimension `(w, h)`, row-major
`data` of length `w·h`, optional `no_data` sentinel of type `T`, a time
interval, and a `GeoTransform`"); field names follow the accesses made in
`cl_program.rs` (`data_container`, `no_data_value`, `dimension()`). -/
structure Raster2D (T : Type) where
  grid_dimension : Dim2
  data_container : List T
  no_data_value : Option T
  temporal_bounds : TimeInterval
  geo_transform : GeoTransform
deriving DecidableEq

/-- The `dimension()` accessor used by `cl_program.rs`. -/
def Raster2D.dimension {T : Type} (r : Raster2D T) : Dim2 := r.grid_dimension

/-- `TypedRaster2D`: the tagged union over the ten element types.  Unsigned
pixel values are represented by `Nat`, signed by `Int`, floating by `ℚ`;
no validated operation computes with pixel values. -/
inductive TypedRaster2D where
  | U8 (r : Raster2D Nat)
  | U16 (r : Raster2D Nat)
  | U32 (r : Raster2D Nat)
  | U64 (r : Raster2D Nat)
  | I8 (r : Raster2D Int)
  | I16 (r : Raster2D Int)
  | I32 (r : Raster2D Int)
  | I64 (r : Raster2D Int)
  | F32 (r : Raster2D ℚ)
  | F64 (r : Raster2D ℚ)
deriving DecidableEq

/-- `raster_data_type()`: the element-type tag of the union. -/
def TypedRaster2D.raster_data_type : TypedRaster2D → RasterDataType
  | TypedRaster2D.U8 _ => RasterDataType.U8
  | TypedRaster2D.U16 _ => RasterDataType.U16
  | TypedRaster2D.U32 _ => RasterDataType.U32
  | TypedRaster2D.U64 _ => RasterDataType.U64
  | TypedRaster2D.I8 _ => RasterDataType.I8
  | TypedRaster2D.I16 _ => RasterDataType.I16
  | TypedRaster2D.I32 _ => RasterDataType.I32
  | TypedRaster2D.I64 _ => RasterDataType.I64
  | TypedRaster2D.F32 _ => RasterDataType.F32
  | TypedRaster2D.F64 _ => RasterDataType.F64

/-- The `call_generic_raster2d!` dispatch of `dimension()` over the union. -/
def TypedRaster2D.dimension : TypedRaster2D → Dim2
  | TypedRaster2D.U8 r => r.dimension
  | TypedRaster2D.U16 r => r.dimension
  | TypedRaster2D.U32 r => r.dimension
  | TypedRaster2D.U64 r => r.dimension
  | TypedRaster2D.I8 r => r.dimension
  | TypedRaster2D.I16 r => r.dimension
  | TypedRaster2D.I32 r => r.dimension
  | TypedRaster2D.I64 r => r.dimension
  | TypedRaster2D.F32 r => r.dimension
  | TypedRaster2D.F64 r => r.dimension

/-- `RasterInfo` from `cl_program.rs` (§the device-visible record).  The
three-element C arrays are embedded as lists; byte layout and padding are a
memory-layout concern outside the embedding. -/
structure RasterInfo where
  size : List Nat
  origin : List ℚ
  scale : List ℚ
  min : ℚ
  max : ℚ
  no_data : ℚ
  crs_code : Nat
  has_no_data : Nat
deriving DecidableEq

/-- `RasterInfo::from_raster` from `cl_program.rs`.  `as_f64` stands for the
`AsPrimitive::as_` conversion of the pixel type to `f64`; the `usize`
dimension sizes pass through `AsPrimitive::as_` to `cl_uint` (`u32`), a
truncating cast, written here as `% 2 ^ 32`. -/
def RasterInfo.from_raster {T : Type} (as_f64 : T → ℚ) (raster : Raster2D T) : RasterInfo :=
  { size := [raster.dimension.size_of_x_axis % 2 ^ 32,
      raster.dimension.size_of_y_axis % 2 ^ 32, 1]
    origin := [0, 0, 0]
    scale := [0, 0, 0]
    min := 0
    max := 0
    no_data := raster.no_data_value.elim 0 as_f64
    crs_code := 0
    has_no_data := if raster.no_data_value.isSome then 1 else 0 }

/-- Modelled from the spec: a `MultiPoint` collection ("a flat
`coordinates`, a `multipoint_offsets` of length `num_features+1`, per-feature
`time_interval`, and typed attribute columns keyed by name"); the collections
module is not among the analysed sources. -/
structure MultiPointCollection where
  coordinates : List Coordinate2D
  multipoint_offsets : List Int
  time_intervals : List TimeInterval
  columns : List (String × FeatureDataType)
deriving DecidableEq

/-- Modelled from the spec: a `Data` (attribute-only) collection. -/
structure DataCollection where
  time_intervals : List TimeInterval
  columns : List (String × FeatureDataType)
deriving DecidableEq

/-- Modelled from the spec: line collections are declared but not
implemented; only their attribute schema is observable. -/
structure MultiLineStringCollection where
  columns : List (String × FeatureDataType)
deriving DecidableEq

/-- Modelled from the spec: polygon collections are declared but not
implemented; only their attribute schema is observable. -/
structure MultiPolygonCollection where
  columns : List (String × FeatureDataType)
deriving DecidableEq

/-- `TypedFeatureCollection`: the tagged union over geometry kinds matched on
in `cl_program.rs`. -/
inductive TypedFeatureCollection where
  | Data (c : DataCollection)
  | MultiPoint (c : MultiPointCollection)
  | MultiLineString (c : MultiLineStringCollection)
  | MultiPolygon (c : MultiPolygonCollection)
deriving DecidableEq

/-- `vector_data_type()`: the geometry tag of the union. -/
def TypedFeatureCollection.vector_data_type : TypedFeatureCollection → VectorDataType
  | TypedFeatureCollection.Data _ => VectorDataType.Data
  | TypedFeatureCollection.MultiPoint _ => VectorDataType.MultiPoint
  | TypedFeatureCollection.MultiLineString _ => VectorDataType.MultiLineString
  | TypedFeatureCollection.MultiPolygon _ => VectorDataType.MultiPolygon

/-- The attribute schema of any collection variant. -/
def TypedFeatureCollection.attribute_schema : TypedFeatureCollection → List (String × FeatureDataType)
  | TypedFeatureCollection.Data c => c.columns
  | TypedFeatureCollection.MultiPoint c => c.columns
  | TypedFeatureCollection.MultiLineString c => c.columns
  | TypedFeatureCollection.MultiPolygon c => c.columns

/-- Modelled from the spec: `column_type(name)`, the per-column type query
the `Runnable` uses for validation. -/
def TypedFeatureCollection.column_type (f : TypedFeatureCollection) (name : String) :
    Option FeatureDataType :=
  (f.attribute_schema.find? (fun c => c.1 == name)).map (fun c => c.2)

/-- Modelled from the spec: `FeatureCollectionBatchBuilder`, restricted to
the fields `cl_program.rs` reads (`output_type`, `num_features()`,
`num_coords()`); the builder module is not among the analysed sources. -/
structure FeatureCollectionBatchBuilder where
  output_type : VectorDataType
  num_features : Nat
  num_coords : Nat
deriving DecidableEq

/-- `CLProgramRunnable` from `cl_program.rs`.  Device buffers are allocated
only during `run` and are outside the host model. -/
structure CLProgramRunnable where
  input_raster_types : List RasterArgument
  output_raster_types : List RasterArgument
  input_rasters : List (Option TypedRaster2D)
  output_rasters : List (Option TypedRaster2D)
  input_feature_types : List VectorArgument
  output_feature_types : List VectorArgument
  input_features : List (Option TypedFeatureCollection)
  output_features : List (Option FeatureCollectionBatchBuilder)
deriving DecidableEq

/-- `CLProgramRunnable::new` from `cl_program.rs`: every slot starts
unbound. -/
def CLProgramRunnable.new (input_raster_types output_raster_types : List RasterArgument)
    (input_feature_types output_feature_types : List VectorArgument) : CLProgramRunnable :=
  { input_raster_types := input_raster_types
    output_raster_types := output_raster_types
    input_rasters := List.replicate input_raster_types.length none
    output_rasters := List.replicate output_raster_types.length none
    input_feature_types := input_feature_types
    output_feature_types := output_feature_types
    input_features := List.replicate input_feature_types.length none
    output_features := List.replicate output_feature_types.length none }

/-- `CompiledCLProgram::runnable` from `cl_program.rs`. -/
def CompiledCLProgram.runnable (c : CompiledCLProgram) : CLProgramRunnable :=
  CLProgramRunnable.new c.input_raster_types c.output_raster_types
    c.input_feature_types c.output_feature_types

/-- `CLProgramRunnable::set_input_raster` from `cl_program.rs`: index gate
against `input_raster_types`, tag gate against the declared input
descriptor, then record the binding. -/
def CLProgramRunnable.set_input_raster (self : CLProgramRunnable) (idx : Nat)
    (raster : TypedRaster2D) : Except CLError CLProgramRunnable :=
  if h : idx < self.input_raster_types.length then
    if raster.raster_data_type = (self.input_raster_types.get ⟨idx, h⟩).data_type then
      Except.ok { self with input_rasters := self.input_rasters.set idx (some raster) }
    else Except.error CLError.invalidRasterDataType
  else Except.error CLError.invalidRasterIndex

/-- `CLProgramRunnable::set_output_raster` from `cl_program.rs`.  NOTE: the
source gates the index against `self.input_raster_types.len()` (not the
output list) and then indexes `self.output_raster_types[idx]`; the Rust
indexing panics when that second list is shorter, which the
`Option`-wrapping records as `none`. -/
def CLProgramRunnable.set_output_raster (self : CLProgramRunnable) (idx : Nat)
    (raster : TypedRaster2D) : Option (Except CLError CLProgramRunnable) :=
  if idx < self.input_raster_types.length then
    match self.output_raster_types.get? idx with
    | none => none
    | some arg =>
      if raster.raster_data_type = arg.data_type then
        some (Except.ok { self with output_rasters := self.output_rasters.set idx (some raster) })
      else some (Except.error CLError.invalidRasterDataType)
  else some (Except.error CLError.invalidRasterIndex)

/-- The column predicate built (and then discarded) inside
`set_input_features`: every declared `(name, type)` pair must be exposed by
the collection with exactly that type. -/
def columns_match (arg : VectorArgument) (features : TypedFeatureCollection) : Bool :=
  (arg.columns.zip arg.column_types).all fun nt =>
    match features.column_type nt.1 with
    | some t => t == nt.2
    | none => false

/-- `CLProgramRunnable::set_input_features` from `cl_program.rs`.  NOTE: the
source computes the column-validation iterator (`iter.all(...)` inside
`call_generic_features!`) but never tests the resulting boolean — the value
is discarded, mirrored by the unused `let` below — so the function succeeds
whenever the index and the geometry tag check out. -/
def CLProgramRunnable.set_input_features (self : CLProgramRunnable) (idx : Nat)
    (features : TypedFeatureCollection) : Except CLError CLProgramRunnable :=
  if h : idx < self.input_feature_types.length then
    if features.vector_data_type = (self.input_feature_types.get ⟨idx, h⟩).vector_type then
      let _discarded_column_check := columns_match (self.input_feature_types.get ⟨idx, h⟩) features
      Except.ok { self with input_features := self.input_features.set idx (some features) }
    else Except.error CLError.invalidVectorDataType
  else Except.error CLError.invalidFeaturesIndex

/-- `CLProgramRunnable::set_output_features` from `cl_program.rs`: index
validation only (type and column checks are commented out in the source). -/
def CLProgramRunnable.set_output_features (self : CLProgramRunnable) (idx : Nat)
    (features : FeatureCollectionBatchBuilder) : Except CLError CLProgramRunnable :=
  if idx < self.output_feature_types.length then
    Except.ok { self with output_features := self.output_features.set idx (some features) }
  else Except.error CLError.invalidFeaturesIndex

/-- A loop of `slot.expect(..)` over a list of slots: `none` models the Rust
panic on the first unbound slot. -/
def expect_all {α : Type} : List (Option α) → Option (List α)
  | [] => some []
  | none :: _ => none
  | some a :: rest => (expect_all rest).map (fun l => a :: l)

/-- The geometry dispatch of the input loop of `set_feature_arguments`:
`Data` contributes no geometry, `MultiPoint` uploads coordinate and offset
buffers (device side, outside the model), lines and polygons hit `todo!()`
— a panic, modelled as `none`. -/
def input_geo_upload : List TypedFeatureCollection → Option Unit
  | [] => some ()
  | TypedFeatureCollection.Data _ :: rest => input_geo_upload rest
  | TypedFeatureCollection.MultiPoint _ :: rest => input_geo_upload rest
  | TypedFeatureCollection.MultiLineString _ :: _ => none
  | TypedFeatureCollection.MultiPolygon _ :: _ => none

/-- The geometry dispatch of the output loop of `set_feature_arguments`:
only `MultiPoint` is implemented, every other output type hits `todo!()`. -/
def output_geo_alloc : List FeatureCollectionBatchBuilder → Option Unit
  | [] => some ()
  | b :: rest =>
    match b.output_type with
    | VectorDataType.MultiPoint => output_geo_alloc rest
    | _ => none

/-- `CLProgramRunnable::set_raster_arguments` from `cl_program.rs`: `ensure!`
that every declared input raster is bound (else `UnspecifiedRaster`), upload
the inputs (`expect` is safe after the gate), then loop over the declared
output slots with `raster.as_ref().expect("checked")` — which panics on an
unbound output slot.  Buffer allocation and `set_arg` are device-side. -/
def CLProgramRunnable.set_raster_arguments (self : CLProgramRunnable) :
    Option (Except CLError Unit) :=
  if self.input_rasters.all Option.isSome then
    match expect_all self.input_rasters with
    | none => none
    | some _ =>
      match expect_all self.output_rasters with
      | none => none
      | some _ => some (Except.ok ())
  else some (Except.error CLError.unspecifiedRaster)

/-- `CLProgramRunnable::set_feature_arguments` from `cl_program.rs`:
`ensure!` that every declared input collection is bound (else
`UnspecifiedFeatures`), upload input geometry (lines/polygons `todo!()`),
then loop over the declared output slots with `expect("checked")` and the
output geometry dispatch (non-points `todo!()`). -/
def CLProgramRunnable.set_feature_arguments (self : CLProgramRunnable) :
    Option (Except CLError Unit) :=
  if self.input_features.all Option.isSome then
    match expect_all self.input_features with
    | none => none
    | some fs =>
      match input_geo_upload fs with
      | none => none
      | some _ =>
        match expect_all self.output_features with
        | none => none
        | some bs =>
          match output_geo_alloc bs with
          | none => none
          | some _ => some (Except.ok ())
  else some (Except.error CLError.unspecifiedFeatures)

/-- `SpatialDims` (the `ocl` global work size actually constructed by
`work_size`): one- or two-dimensional. -/
inductive SpatialDims where
  | One (n : Nat)
  | Two (x y : Nat)
deriving DecidableEq

/-- `CompiledCLProgram::work_size` from `cl_program.rs`: output raster 0's
dimensions under `Raster` iteration, output collection 0's feature count or
coordinate count under the vector iterations.  The `[0]` indexing and the
`expect("checked")` panic on a missing or unbound slot 0 are `none`. -/
def CompiledCLProgram.work_size (c : CompiledCLProgram) (runnable : CLProgramRunnable) :
    Option SpatialDims :=
  match c.iteration_type with
  | IterationType.Raster =>
    match runnable.output_rasters.get? 0 with
    | some (some raster) =>
      some (SpatialDims.Two raster.dimension.size_of_x_axis raster.dimension.size_of_y_axis)
    | _ => none
  | IterationType.VectorFeatures =>
    match runnable.output_features.get? 0 with
    | some (some b) => some (SpatialDims.One b.num_features)
    | _ => none
  | IterationType.VectorCoordinates =>
    match runnable.output_features.get? 0 with
    | some (some b) => some (SpatialDims.One b.num_coords)
    | _ => none

/-- The geometry dispatch shared by the two feature-placeholder loops of
`set_argument_placeholders`: `Data` contributes no geometry arguments,
`MultiPoint` declares coordinate and offset placeholders (device side),
and `MultiLineString`/`MultiPolygon` hit `todo!()` — a host panic,
modelled as `none`. -/
def feature_arg_placeholders : List VectorArgument → Option Unit
  | [] => some ()
  | a :: rest =>
    match a.vector_type with
    | VectorDataType.Data => feature_arg_placeholders rest
    | VectorDataType.MultiPoint => feature_arg_placeholders rest
    | VectorDataType.MultiLineString => none
    | VectorDataType.MultiPolygon => none

/-- `CompiledCLProgram::set_argument_placeholders` from `cl_program.rs`:
the raster placeholder loops (`add_data_buffer_placeholder`) carry no host
failure, but the input- and output-feature loops match on the declared
geometry and `todo!()` — panic — on line and polygon arguments. -/
def CompiledCLProgram.set_argument_placeholders (c : CompiledCLProgram) : Option Unit :=
  match feature_arg_placeholders c.input_feature_types with
  | none => none
  | some _ => feature_arg_placeholders c.output_feature_types

/-- `CompiledCLProgram::run` from `cl_program.rs`: queue and kernel-builder
construction are device-side; `set_argument_placeholders` runs first and can
panic on declared line/polygon feature arguments; then
`set_raster_arguments`, `set_feature_arguments`, `work_size`, the
unconditional kernel enqueue with the derived global work size, and the
readback.  The successful result records the enqueued work size; `none`
models a panic along the way. -/
def CompiledCLProgram.run (c : CompiledCLProgram) (runnable : CLProgramRunnable) :
    Option (Except CLError SpatialDims) :=
  match c.set_argument_placeholders with
  | none => none
  | some _ =>
  match runnable.set_raster_arguments with
  | none => none
  | some (Except.error e) => some (Except.error e)
  | some (Except.ok _) =>
    match runnable.set_feature_arguments with
    | none => none
    | some (Except.error e) => some (Except.error e)
    | some (Except.ok _) =>
      match c.work_size runnable with
      | none => none
      | some dims => some (Except.ok dims)

theorem expect_all_eq_none {α : Type} (l : List (Option α))
    (h : l.all Option.isSome = false) : expect_all l = none := by
  induction l with
  | nil => simp at h
  | cons o rest ih =>
    cases o with
    | none => rfl
    | some a =>
      simp only [List.all_cons, Option.isSome_some, Bool.true_and] at h
      simp [expect_all, ih h]

theorem expect_all_eq_some {α : Type} (l : List (Option α))
    (h : l.all Option.isSome = true) : ∃ xs, expect_all l = some xs := by
  induction l with
  | nil => exact ⟨[], rfl⟩
  | cons o rest ih =>
    cases o with
    | none => simp at h
    | some a =>
      simp only [List.all_cons, Option.isSome_some, Bool.true_and] at h
      obtain ⟨xs, hxs⟩ := ih h
      exact ⟨a :: xs, by simp [expect_all, hxs]⟩

theorem set_raster_arguments_cases (r : CLProgramRunnable) :
    r.set_raster_arguments = none ∨ r.set_raster_arguments = some (Except.ok ())
    ∨ r.set_raster_arguments = some (Except.error CLError.unspecifiedRaster) := by
  unfold CLProgramRunnable.set_raster_arguments
  split
  · cases h1 : expect_all r.input_rasters with
    | none => simp [h1]
    | some xs =>
      cases h2 : expect_all r.output_rasters with
      | none => simp [h1, h2]
      | some ys => simp [h1, h2]
  · simp

theorem set_feature_arguments_cases (r : CLProgramRunnable) :
    r.set_feature_arguments = none ∨ r.set_feature_arguments = some (Except.ok ())
    ∨ r.set_feature_arguments = some (Except.error CLError.unspecifiedFeatures) := by
  unfold CLProgramRunnable.set_feature_arguments
  split
  · cases h1 : expect_all r.input_features with
    | none => simp [h1]
    | some fs =>
      cases h2 : input_geo_upload fs with
      | none => simp [h1, h2]
      | some u =>
        cases h3 : expect_all r.output_features with
        | none => simp [h1, h2, h3]
        | some bs =>
          cases h4 : output_geo_alloc bs with
          | none => simp [h1, h2, h3, h4]
          | some v => simp [h1, h2, h3, h4]
  · simp

/-- C8: `RasterInfo::from_raster`, for a raster of any element type, returns
`size = [width % 2^32, height % 2^32, 1]` (the `usize` sizes pass through a
truncating cast to `cl_uint`, so `[width, height, 1]` exactly whenever both
sizes fit in `u32`), `no_data` equal to the sentinel converted to `f64` and
0 when the sentinel is absent, `has_no_data` equal to the 0/1 presence
indicator, and zero `origin`, `scale`, `min`, `max`, `crs_code`. -/
theorem raster_info_from_raster_fields {T : Type} (as_f64 : T → ℚ) (r : Raster2D T) :
    (RasterInfo.from_raster as_f64 r).size
        = [r.dimension.size_of_x_axis % 2 ^ 32, r.dimension.size_of_y_axis % 2 ^ 32, 1]
    ∧ (r.dimension.size_of_x_axis < 2 ^ 32 → r.dimension.size_of_y_axis < 2 ^ 32 →
        (RasterInfo.from_raster as_f64 r).size
          = [r.dimension.size_of_x_axis, r.dimension.size_of_y_axis, 1])
    ∧ (RasterInfo.from_raster as_f64 r).no_data = (r.no_data_value.map as_f64).getD 0
    ∧ ((RasterInfo.from_raster as_f64 r).has_no_data
        = if r.no_data_value.isSome then 1 else 0)
    ∧ (RasterInfo.from_raster as_f64 r).origin = [0, 0, 0]
    ∧ (RasterInfo.from_raster as_f64 r).scale = [0, 0, 0]
    ∧ (RasterInfo.from_raster as_f64 r).min = 0
    ∧ (RasterInfo.from_raster as_f64 r).max = 0
    ∧ (RasterInfo.from_raster as_f64 r).crs_code = 0 := by
  refine ⟨rfl, fun hx hy => ?_, ?_⟩
  · simp only [RasterInfo.from_raster, Nat.mod_eq_of_lt hx, Nat.mod_eq_of_lt hy]
  · cases h : r.no_data_value <;> simp [RasterInfo.from_raster, h]

/-- A 3×2 `I32` raster tile carrying the no-data sentinel 1337. -/
def sample_i32_nodata_raster : Raster2D Int :=
  { grid_dimension := { size_of_x_axis := 3, size_of_y_axis := 2 }
    data_container := [1, 2, 3, 4, 5, 6]
    no_data_value := some 1337
    temporal_bounds := { start := 0, stop := 0 }
    geo_transform := GeoTransform.default }

theorem raster_info_from_raster_fields_witness :
    sample_i32_nodata_raster.dimension.size_of_x_axis < 2 ^ 32
    ∧ sample_i32_nodata_raster.dimension.size_of_y_axis < 2 ^ 32
    ∧ (RasterInfo.from_raster (fun v : Int => (v : ℚ)) sample_i32_nodata_raster).size
        = [3, 2, 1] := by
  refine ⟨by decide, by decide, ?_⟩
  exact (raster_info_from_raster_fields (fun v : Int => (v : ℚ))
    sample_i32_nodata_raster).2.1 (by decide) (by decide)

/-- An empty `I32` raster tile (0×0, no data, default transform). -/
def empty_i32_raster : Raster2D Int :=
  { grid_dimension := { size_of_x_axis := 0, size_of_y_axis := 0 }
    data_container := []
    no_data_value := none
    temporal_bounds := { start := 0, stop := 0 }
    geo_transform := GeoTransform.default }

/-- A runnable declared with two input rasters and one output raster, all
`I32`, with nothing bound yet. -/
def two_in_one_out_runnable : CLProgramRunnable :=
  CLProgramRunnable.new
    [{ data_type := RasterDataType.I32 }, { data_type := RasterDataType.I32 }]
    [{ data_type := RasterDataType.I32 }] [] []

/-- C2: the claim fails on the code.  `set_output_raster` gates the index
against the number of declared INPUT rasters, then indexes the output
descriptor list.  On a program with two input rasters and one output
raster, `set_output_raster(1, raster)` passes the index gate (1 < 2) and
panics indexing `output_raster_types[1]` — instead of returning
`InvalidRasterIndex` as the claim requires. -/
theorem set_output_raster_panics_out_of_range :
    two_in_one_out_runnable.set_output_raster 1 (TypedRaster2D.I32 empty_i32_raster)
      = none := by
  rfl

/-- A runnable declaring one `MultiPoint` input collection with a required
column `population : Number`, nothing bound yet. -/
def declared_column_runnable : CLProgramRunnable :=
  CLProgramRunnable.new [] []
    [{ vector_type := VectorDataType.MultiPoint
       columns := ["population"]
       column_types := [FeatureDataType.Number] }] []

/-- A `MultiPoint` collection exposing no attribute columns at all. -/
def no_column_points : TypedFeatureCollection :=
  TypedFeatureCollection.MultiPoint
    { coordinates := [{ x := 0, y := 0 }]
      multipoint_offsets := [0, 1]
      time_intervals := [{ start := 0, stop := 1 }]
      columns := [] }

/-- C3: the claim fails on the code.  The declared column `population` is
absent from the bound collection, yet `set_input_features` succeeds: the
source computes the column-validation boolean and discards it, so
`MissingColumn`/`ColumnTypeMismatch` are never produced. -/
theorem set_input_features_ignores_missing_column :
    no_column_points.column_type "population" = none
    ∧ declared_column_runnable.set_input_features 0 no_column_points
      = Except.ok { declared_column_runnable with input_features := [some no_column_points] } := by
  constructor <;> rfl

/-- A compiled raster-iteration program with one `I32` input and one `I32`
output. -/
def add_compiled : CompiledCLProgram :=
  { kernel_name := "add"
    iteration_type := IterationType.Raster
    input_raster_types := [{ data_type := RasterDataType.I32 }]
    output_raster_types := [{ data_type := RasterDataType.I32 }]
    input_feature_types := []
    output_feature_types := []
    build_source := "" }

/-- A fully bound runnable for `add_compiled` whose output raster is 0×0, so
the derived work size is empty. -/
def empty_size_runnable : CLProgramRunnable :=
  { input_raster_types := [{ data_type := RasterDataType.I32 }]
    output_raster_types := [{ data_type := RasterDataType.I32 }]
    input_rasters := [some (TypedRaster2D.I32 empty_i32_raster)]
    output_rasters := [some (TypedRaster2D.I32 empty_i32_raster)]
    input_feature_types := []
    output_feature_types := []
    input_features := []
    output_features := [] }

/-- C4 counterexample: with every slot bound and the output raster 0×0, the
derived work size is empty, yet `run` does not fail with `EmptyWorkSize`
before dispatch — it proceeds and enqueues the kernel with global work size
`(0, 0)`. -/
theorem run_with_empty_work_size_dispatches :
    add_compiled.run empty_size_runnable = some (Except.ok (SpatialDims.Two 0 0))
    ∧ add_compiled.run empty_size_runnable ≠ some (Except.error CLError.emptyWorkSize) := by
  refine ⟨rfl, fun h => ?_⟩
  rw [show add_compiled.run empty_size_runnable
    = some (Except.ok (SpatialDims.Two 0 0)) from rfl] at h
  simp at h

/-- C4 (amended): `run` performs no emptiness check on the derived work
size.  It never returns the `EmptyWorkSize` error, and whenever placeholder
installation and argument binding succeed and the work-size derivation
yields `dims`, the kernel is dispatched with exactly those `dims` —
including empty ones. -/
theorem run_has_no_empty_work_size_gate :
    (∀ (c : CompiledCLProgram) (r : CLProgramRunnable),
      c.run r ≠ some (Except.error CLError.emptyWorkSize))
    ∧ (∀ (c : CompiledCLProgram) (r : CLProgramRunnable) (dims : SpatialDims),
      c.set_argument_placeholders = some () →
      r.set_raster_arguments = some (Except.ok ()) →
      r.set_feature_arguments = some (Except.ok ()) →
      c.work_size r = some dims →
      c.run r = some (Except.ok dims)) := by
  constructor
  · intro c r h
    cases h0 : c.set_argument_placeholders with
    | none => simp [CompiledCLProgram.run, h0] at h
    | some u =>
      rcases set_raster_arguments_cases r with h1 | h1 | h1
      · simp [CompiledCLProgram.run, h0, h1] at h
      · rcases set_feature_arguments_cases r with h2 | h2 | h2
        · simp [CompiledCLProgram.run, h0, h1, h2] at h
        · cases h3 : c.work_size r with
          | none => simp [CompiledCLProgram.run, h0, h1, h2, h3] at h
          | some dims => simp [CompiledCLProgram.run, h0, h1, h2, h3] at h
        · simp [CompiledCLProgram.run, h0, h1, h2] at h
      · simp [CompiledCLProgram.run, h0, h1] at h
  · intro c r dims h0 h1 h2 h3
    simp [CompiledCLProgram.run, h0, h1, h2, h3]

theorem run_has_no_empty_work_size_gate_witness :
    add_compiled.run empty_size_runnable = some (Except.ok (SpatialDims.Two 0 0))
    ∧ add_compiled.run empty_size_runnable ≠ some (Except.error CLError.emptyWorkSize) :=
  ⟨run_has_no_empty_work_size_gate.2 add_compiled empty_size_runnable
      (SpatialDims.Two 0 0) rfl rfl rfl rfl,
    run_has_no_empty_work_size_gate.1 add_compiled empty_size_runnable⟩

/-- C10: `run` checks only that the declared inputs are bound.  If every
declared input is bound but some declared output raster or output feature
slot is unbound, `run` panics (the `expect("checked")` on the empty slot)
instead of returning an `UnspecifiedRaster`/`UnspecifiedFeatures` error; the
panic happens during argument binding, before dispatch and readback. -/
theorem run_panics_on_unbound_output (c : CompiledCLProgram) (r : CLProgramRunnable)
    (h_in_rasters : r.input_rasters.all Option.isSome = true)
    (h_in_features : r.input_features.all Option.isSome = true)
    (h_unbound : r.output_rasters.all Option.isSome = false
      ∨ r.output_features.all Option.isSome = false) :
    c.run r = none := by
  cases h0 : c.set_argument_placeholders with
  | none => simp [CompiledCLProgram.run, h0]
  | some u =>
    rcases h_unbound with h | h
    · have h1 : r.set_raster_arguments = none := by
        obtain ⟨xs, hxs⟩ := expect_all_eq_some _ h_in_rasters
        have hnone := expect_all_eq_none _ h
        simp [CLProgramRunnable.set_raster_arguments, h_in_rasters, hxs, hnone]
      simp [CompiledCLProgram.run, h0, h1]
    · cases hor : r.output_rasters.all Option.isSome with
      | false =>
        have h1 : r.set_raster_arguments = none := by
          obtain ⟨xs, hxs⟩ := expect_all_eq_some _ h_in_rasters
          have hnone := expect_all_eq_none _ hor
          simp [CLProgramRunnable.set_raster_arguments, h_in_rasters, hxs, hnone]
        simp [CompiledCLProgram.run, h0, h1]
      | true =>
        have h1 : r.set_raster_arguments = some (Except.ok ()) := by
          obtain ⟨xs, hxs⟩ := expect_all_eq_some _ h_in_rasters
          obtain ⟨ys, hys⟩ := expect_all_eq_some _ hor
          simp [CLProgramRunnable.set_raster_arguments, h_in_rasters, hxs, hys]
        have h2 : r.set_feature_arguments = none := by
          obtain ⟨fs, hfs⟩ := expect_all_eq_some _ h_in_features
          have hnone := expect_all_eq_none _ h
          cases hg : input_geo_upload fs with
          | none => simp [CLProgramRunnable.set_feature_arguments, h_in_features, hfs, hg]
          | some u =>
            simp [CLProgramRunnable.set_feature_arguments, h_in_features, hfs, hg, hnone]
        simp [CompiledCLProgram.run, h0, h1, h2]

/-- A runnable for `add_compiled` with the input bound and the single output
raster slot left unbound. -/
def unbound_output_runnable : CLProgramRunnable :=
  { input_raster_types := [{ data_type := RasterDataType.I32 }]
    output_raster_types := [{ data_type := RasterDataType.I32 }]
    input_rasters := [some (TypedRaster2D.I32 empty_i32_raster)]
    output_rasters := [none]
    input_feature_types := []
    output_feature_types := []
    input_features := []
    output_features := [] }

theorem run_panics_on_unbound_output_witness :
    add_compiled.run unbound_output_runnable = none :=
  run_panics_on_unbound_output add_compiled unbound_output_runnable rfl rfl (Or.inl rfl)

/-- A program with two input rasters (`I32`, `F32`) and one output raster
(`U8`), exercising both `ISNODATA` macro variants and both typedef kinds. -/
def mixed_raster_program : CLProgram :=
  { input_rasters := [{ data_type := RasterDataType.I32 }, { data_type := RasterDataType.F32 }]
    output_rasters := [{ data_type := RasterDataType.U8 }]
    input_features := []
    output_features := []
    iteration_type := IterationType.Raster }

/-- A program declaring no raster arguments at all. -/
def rasterless_program : CLProgram :=
  { input_rasters := []
    output_rasters := []
    input_features := [{ vector_type := VectorDataType.MultiPoint, columns := [], column_types := [] }]
    output_features := [{ vector_type := VectorDataType.MultiPoint, columns := [], column_types := [] }]
    iteration_type := IterationType.VectorCoordinates }

theorem create_type_definitions_matches_claim_witness :
    create_type_definitions rasterless_program = ""
    ∧ create_type_definitions mixed_raster_program =
        raster_info_struct_and_accessor
          ++ concat_str claim_input_entry mixed_raster_program.input_rasters.enum
          ++ concat_str claim_output_entry mixed_raster_program.output_rasters.enum :=
  ⟨(create_type_definitions_matches_claim rasterless_program).1 ⟨rfl, rfl⟩,
    (create_type_definitions_matches_claim mixed_raster_program).2 (Or.inl (by decide))⟩

end GeoEngine
